import Mathlib

/- Shallow embedding of the Summarion core: src/summarion/core/models.py
   (pydantic data models) and src/summarion/core/contracts.py (protocols).
   Pydantic models become structures; pydantic construction-time validation
   becomes explicit validate functions returning Except (an omitted argument is
   the none case of an Option parameter); pydantic default versus
   default_factory semantics are modelled with an allocation counter so that
   object identity of mutable defaults is observable. Python float literals are
   embedded as the rationals they denote in the source text. -/

namespace Summarion

/-- Errors pydantic raises at the model boundary: a ValidationError when a
required field is missing, and the error raised on assignment to a frozen
model instance. -/
inductive PyErr where
  | validation_error
  | frozen_instance
deriving DecidableEq

/-- Values of the open metadata bag (Dict of str to Any in the source). -/
inductive AnyVal where
  | str (s : String)
  | int (n : Int)
  | rat (q : ℚ)
  | bool (b : Bool)
  | pynone
deriving DecidableEq

/-- A Python runtime object: an address identifying it and its value. Used to
model object identity of mutable default values. -/
structure PyObj (α : Type) where
  addr : Nat
  val : α
deriving DecidableEq

/-- Pydantic field default semantics: default (a single shared object reused by
every construction) versus default_factory (the factory is invoked at each
construction, producing a fresh object). -/
inductive PyFieldDefault (α : Type) where
  | shared (obj : PyObj α)
  | factory (mk : Unit → α)

/-- Run one field default at construction time, given the next fresh address:
a factory allocates a fresh object, a shared default is returned as is. -/
def runDefault {α : Type} : PyFieldDefault α → Nat → PyObj α × Nat
  | .factory mk, c => (⟨c, mk ()⟩, c + 1)
  | .shared o, c => (o, c)

/-- Message model (models.py): id, role, content required strings, timestamp an
optional string defaulting to None. -/
structure Message where
  id : String
  role : String
  content : String
  timestamp : Option String
deriving DecidableEq

/-- Pydantic model configuration of Message as written in the source: the class
declares no model_config, so the pydantic default applies and the model is not
frozen. -/
def Message.model_frozen : Bool := false

/-- One field assignment on a Message instance, as issued by a caller. -/
inductive MessageAttr where
  | set_id (v : String)
  | set_role (v : String)
  | set_content (v : String)
  | set_timestamp (v : Option String)

/-- The updated record an assignment produces when it is permitted. -/
def Message.apply_attr (m : Message) : MessageAttr → Message
  | .set_id v => { m with id := v }
  | .set_role v => { m with role := v }
  | .set_content v => { m with content := v }
  | .set_timestamp v => { m with timestamp := v }

/-- Attribute assignment on a Message: pydantic rejects it only on a frozen
model, and Message is not frozen. -/
def Message.setattr (m : Message) (a : MessageAttr) : Except PyErr Message :=
  if Message.model_frozen then .error .frozen_instance
  else .ok (Message.apply_attr m a)

/-- Construction of a Message: pydantic checks only that the required fields
id, role and content are supplied; no field declares a constraint such as a
minimum length, so any string value passes. -/
def Message.validate (id role content : Option String)
    (timestamp : Option String) : Except PyErr Message :=
  match id, role, content with
  | some i, some r, some c => .ok ⟨i, r, c, timestamp⟩
  | _, _, _ => .error .validation_error

/-- AttributedPoint model: text required, source_msg_ids default_factory list. -/
structure AttributedPoint where
  text : String
  source_msg_ids : List String
deriving DecidableEq

/-- Decision model: decision and rationale required, owner and date optional
defaulting to None, source_msg_ids default_factory list. -/
structure Decision where
  decision : String
  rationale : String
  owner : Option String
  date : Option String
  source_msg_ids : List String
deriving DecidableEq

/-- Construction of a Decision: pydantic requires exactly the fields without a
default, namely decision and rationale; owner, date and source_msg_ids fall
back to their declared defaults when omitted. -/
def Decision.validate (decision rationale owner date : Option String)
    (source_msg_ids : Option (List String)) : Except PyErr Decision :=
  match decision, rationale with
  | some d, some r => .ok ⟨d, r, owner, date, source_msg_ids.getD []⟩
  | _, _ => .error .validation_error

/-- Task model: task required; owner, due, priority optional strings defaulting
to None; source_msg_ids default_factory list. The high/medium/low range of
priority appears only in the field description, not as a constraint. -/
structure Task where
  task : String
  owner : Option String
  due : Option String
  priority : Option String
  source_msg_ids : List String
deriving DecidableEq

/-- Construction of a Task: pydantic requires only the task field; priority is
an unconstrained optional string. -/
def Task.validate (task owner due priority : Option String)
    (source_msg_ids : Option (List String)) : Except PyErr Task :=
  match task with
  | some t => .ok ⟨t, owner, due, priority, source_msg_ids.getD []⟩
  | none => .error .validation_error

/-- Event model: timestamp and event required, source_msg_ids default_factory
list. -/
structure Event where
  timestamp : String
  event : String
  source_msg_ids : List String
deriving DecidableEq

/-- SummaryResult model: mode required; title, summary, created_at optional
strings defaulting to None; points, decisions, timeline, tasks, metadata with
default_factory list or dict. -/
structure SummaryResult where
  mode : String
  title : Option String
  points : List AttributedPoint
  decisions : List Decision
  timeline : List Event
  tasks : List Task
  summary : Option String
  metadata : List (String × AnyVal)
  created_at : Option String
deriving DecidableEq

/-- Construction of a SummaryResult: pydantic requires only mode; every other
field falls back to its declared default when omitted. -/
def SummaryResult.validate (mode title : Option String)
    (points : Option (List AttributedPoint))
    (decisions : Option (List Decision))
    (timeline : Option (List Event))
    (tasks : Option (List Task))
    (summary : Option String)
    (metadata : Option (List (String × AnyVal)))
    (created_at : Option String) : Except PyErr SummaryResult :=
  match mode with
  | some m => .ok ⟨m, title, points.getD [], decisions.getD [],
      timeline.getD [], tasks.getD [], summary, metadata.getD [], created_at⟩
  | none => .error .validation_error

/-- Field default of SummaryResult.points in the source: default_factory list. -/
def points_default : PyFieldDefault (List AttributedPoint) :=
  .factory (fun _ => [])

/-- Field default of SummaryResult.decisions: default_factory list. -/
def decisions_default : PyFieldDefault (List Decision) :=
  .factory (fun _ => [])

/-- Field default of SummaryResult.timeline: default_factory list. -/
def timeline_default : PyFieldDefault (List Event) :=
  .factory (fun _ => [])

/-- Field default of SummaryResult.tasks: default_factory list. -/
def tasks_default : PyFieldDefault (List Task) :=
  .factory (fun _ => [])

/-- Field default of SummaryResult.metadata: default_factory dict. -/
def metadata_default : PyFieldDefault (List (String × AnyVal)) :=
  .factory (fun _ => [])

/-- Construction of a SummaryResult supplying only mode, tracked with the
allocation counter: each default_factory field allocates a fresh object.
Returns the constructed value, the addresses of the five freshly allocated
default objects, and the next fresh address. -/
def SummaryResult.new (mode : String) (c : Nat) :
    SummaryResult × List Nat × Nat :=
  let p := runDefault points_default c
  let d := runDefault decisions_default p.2
  let tl := runDefault timeline_default d.2
  let tk := runDefault tasks_default tl.2
  let md := runDefault metadata_default tk.2
  (⟨mode, none, p.1.val, d.1.val, tl.1.val, tk.1.val, none, md.1.val, none⟩,
   [p.1.addr, d.1.addr, tl.1.addr, tk.1.addr, md.1.addr], md.2)

/-- SummarizerConfig model (the ns field embeds the namespace field of the
source, which is a reserved word here): namespace required; llm_provider,
max_tokens, max_cost_usd, temperature, enable_pii_redaction, memory_level with
the defaults written in the source. memory_level is an unconstrained string;
its rolling/session/canonical range appears only in the description. -/
structure SummarizerConfig where
  ns : String
  llm_provider : String
  max_tokens : Int
  max_cost_usd : ℚ
  temperature : ℚ
  enable_pii_redaction : Bool
  memory_level : String
deriving DecidableEq

/-- Construction of a SummarizerConfig: pydantic requires only the namespace
field; every other field falls back to its declared default when omitted and
is otherwise unconstrained. -/
def SummarizerConfig.validate (ns llm_provider : Option String)
    (max_tokens : Option Int) (max_cost_usd temperature : Option ℚ)
    (enable_pii_redaction : Option Bool) (memory_level : Option String) :
    Except PyErr SummarizerConfig :=
  match ns with
  | some n => .ok ⟨n, llm_provider.getD "openai", max_tokens.getD 4000,
      max_cost_usd.getD (1/20), temperature.getD (7/10),
      enable_pii_redaction.getD true, memory_level.getD "session"⟩
  | none => .error .validation_error

/-- The mode_version class attribute of BaseModeStrategy (contracts.py). -/
def BaseModeStrategy.mode_version : String := "1"

/-- A concrete mode strategy built on BaseModeStrategy: mode_name and the two
abstract methods must be provided; mode_version_decl records whether the
subclass declares its own mode_version (Python attribute lookup falls back to
the base class attribute when it does not). -/
structure ModeStrategyImpl where
  mode_name : String
  mode_version_decl : Option String := none
  prompt : List Message → String
  parse : String → List Message → SummaryResult

/-- The mode_version an implementation exposes: its own declaration when
present, otherwise the BaseModeStrategy class attribute. -/
def ModeStrategyImpl.mode_version (s : ModeStrategyImpl) : String :=
  s.mode_version_decl.getD BaseModeStrategy.mode_version

/-- A concrete mode strategy that declares no mode_version of its own. -/
def demo_mode : ModeStrategyImpl where
  mode_name := "pointwise"
  prompt := fun _ => "Summarize the conversation."
  parse := fun _ _ => ⟨"pointwise", none, [], [], [], [], none, [], none⟩

/-- The argument record of LLMClient.complete (contracts.py): prompt and model
required, temperature defaulting to 0.7, max_tokens defaulting to None, and
kwargs the open bag of provider-specific options. -/
structure CompleteArgs where
  prompt : String
  model : String
  temperature : ℚ := 7/10
  max_tokens : Option Int := none
  kwargs : List (String × AnyVal) := []

/-- The error taxonomy complete may raise per its docstring. -/
inductive LLMError where
  | rate_limit_error
  | timeout_error
  | llm_error
deriving DecidableEq

/-- An LLM client: complete returns the raw text output or fails with one of
the documented errors. -/
structure LLMClient where
  complete : CompleteArgs → Except LLMError String

/-- Modelled from the spec: no concrete Store implementation exists under src
(contracts.py declares only the Store protocol and its abstract base class).
Per the spec, load_context returns the most recent persisted result for the
(namespace, memory_level) pair or the explicit absent signal, and save_result
makes its write the authoritative one for that pair. The store is an in-memory
history of saves, most recent first. -/
structure MemStore where
  entries : List ((String × String) × SummaryResult)

/-- Does an entry belong to the given (namespace, memory_level) partition. -/
def entry_matches (ns lvl : String) (e : (String × String) × SummaryResult) :
    Bool :=
  e.1.1 == ns && e.1.2 == lvl

/-- Load the prior summary for a namespace and memory level, or none. -/
def MemStore.load_context (st : MemStore) (ns lvl : String) :
    Option SummaryResult :=
  Option.map (fun e => e.2) (st.entries.find? (entry_matches ns lvl))

/-- Save a summary result for a namespace and memory level. -/
def MemStore.save_result (st : MemStore) (ns : String) (r : SummaryResult)
    (lvl : String) : MemStore :=
  ⟨((ns, lvl), r) :: st.entries⟩

/-- A result was persisted at some point for the given namespace and level. -/
def MemStore.persisted (st : MemStore) (ns lvl : String) (r : SummaryResult) :
    Prop :=
  ((ns, lvl), r) ∈ st.entries

/-- C1: load_context returns either a previously persisted SummaryResult or
the explicit absent signal none, and none is distinct from every
SummaryResult value, including one with all-empty fields; absence is never
encoded as a default or empty SummaryResult. -/
theorem load_context_absent_distinct :
    (∀ (st : MemStore) (ns lvl : String),
      (MemStore.load_context st ns lvl = none ∧
        ∀ r, ¬ MemStore.persisted st ns lvl r) ∨
      (∃ r, MemStore.load_context st ns lvl = some r ∧
        MemStore.persisted st ns lvl r)) ∧
    (∀ r : SummaryResult, (none : Option SummaryResult) ≠ some r) := by
  constructor
  · intro st ns lvl
    obtain ⟨entries⟩ := st
    induction entries with
    | nil =>
      left
      exact ⟨rfl, fun r hr => List.not_mem_nil _ hr⟩
    | cons e tl ih =>
      by_cases hp : entry_matches ns lvl e = true
      · right
        refine ⟨e.2, ?_, ?_⟩
        · simp [MemStore.load_context, List.find?_cons_of_pos _ hp]
        · have h1 : e.1.1 = ns ∧ e.1.2 = lvl := by
            simpa [entry_matches] using hp
          have he : e = ((ns, lvl), e.2) := by
            obtain ⟨⟨a, b⟩, r⟩ := e
            simp only at h1
            simp [h1.1, h1.2]
          show ((ns, lvl), e.2) ∈ e :: tl
          rw [← he]
          exact List.mem_cons_self _ _
      · have hld : MemStore.load_context ⟨e :: tl⟩ ns lvl =
            MemStore.load_context ⟨tl⟩ ns lvl := by
          simp [MemStore.load_context, List.find?_cons_of_neg _ hp]
        rcases ih with ⟨hn, hnp⟩ | ⟨r, hr, hm⟩
        · left
          refine ⟨hld.trans hn, ?_⟩
          intro r hr
          rcases List.mem_cons.mp hr with hhead | htail
          · apply hp
            rw [← hhead]
            simp [entry_matches]
          · exact hnp r htail
        · right
          exact ⟨r, hld.trans hr, List.mem_cons_of_mem _ hm⟩
  · intro r h
    exact Option.noConfusion h

/-- Witness for C1: the absent signal differs from a concrete SummaryResult
whose optional, list and mapping fields are all empty. -/
theorem load_context_absent_distinct_witness :
    (none : Option SummaryResult) ≠
      some ⟨"pointwise", none, [], [], [], [], none, [], none⟩ :=
  load_context_absent_distinct.2
    ⟨"pointwise", none, [], [], [], [], none, [], none⟩

/-- C2 counterexample: a field assignment issued by the caller on a
constructed Message succeeds and yields a Message whose content differs from
the constructed one, so Message is not immutable once constructed. -/
theorem message_assignment_mutates :
    Message.setattr ⟨"m1", "user", "hello", none⟩ (.set_content "edited") =
      .ok ⟨"m1", "user", "edited", none⟩ ∧
    ("edited" : String) ≠ "hello" :=
  ⟨rfl, by decide⟩

/-- C2 amended: Message is not a frozen model, so field assignment by the
caller always succeeds and replaces exactly the assigned field, leaving the
other three fields unchanged. -/
theorem message_not_frozen_setattr :
    ∀ (m : Message) (a : MessageAttr),
      Message.setattr m a = .ok (Message.apply_attr m a) ∧
      (∀ v, Message.apply_attr m (.set_id v) =
        ⟨v, m.role, m.content, m.timestamp⟩) ∧
      (∀ v, Message.apply_attr m (.set_role v) =
        ⟨m.id, v, m.content, m.timestamp⟩) ∧
      (∀ v, Message.apply_attr m (.set_content v) =
        ⟨m.id, m.role, v, m.timestamp⟩) ∧
      (∀ v, Message.apply_attr m (.set_timestamp v) =
        ⟨m.id, m.role, m.content, v⟩) :=
  fun _ _ => ⟨rfl, fun _ => rfl, fun _ => rfl, fun _ => rfl, fun _ => rfl⟩

/-- C3 counterexample: constructing a Task whose priority is the string
urgent, outside the documented set of high, medium, low, succeeds rather than
being rejected. -/
theorem task_priority_unchecked :
    Task.validate (some "ship the release") none none (some "urgent") none =
      .ok ⟨"ship the release", none, none, some "urgent", []⟩ ∧
    ("urgent" : String) ≠ "high" ∧ ("urgent" : String) ≠ "medium" ∧
    ("urgent" : String) ≠ "low" :=
  ⟨rfl, by decide, by decide, by decide⟩

/-- C3 amended: Task construction requires only the task field; priority is
an unconstrained optional string, so any value, inside or outside the
documented high, medium, low set, is accepted, and omission leaves it None. -/
theorem task_priority_any_string :
    (∀ (t : String) (o d p : Option String) (s : Option (List String)),
      Task.validate (some t) o d p s = .ok ⟨t, o, d, p, s.getD []⟩) ∧
    (∀ (o d p : Option String) (s : Option (List String)),
      Task.validate none o d p s = .error .validation_error) :=
  ⟨fun _ _ _ _ _ => rfl, fun _ _ _ _ => rfl⟩

/-- C4 counterexample: constructing a Message whose id is the empty string
succeeds rather than failing, since no non-emptiness constraint is declared
on the id field. -/
theorem message_empty_id_accepted :
    Message.validate (some "") (some "user") (some "hello") none =
      .ok ⟨"", "user", "hello", none⟩ := rfl

/-- C4 amended: Message construction requires id, role and content to be
supplied, but places no constraint on their values: any id string, the empty
string included, is accepted. -/
theorem message_id_any_string :
    (∀ (i r c : String) (t : Option String),
      Message.validate (some i) (some r) (some c) t = .ok ⟨i, r, c, t⟩) ∧
    (∀ (r c t : Option String),
      Message.validate none r c t = .error .validation_error) :=
  ⟨fun _ _ _ _ => rfl, fun _ _ _ => rfl⟩

/-- C5 counterexample: constructing a SummaryResult with only mode supplied
succeeds and yields created_at equal to None, so SummaryResult values with
created_at unset exist. -/
theorem summary_result_without_created_at :
    SummaryResult.validate (some "pointwise")
        none none none none none none none none =
      .ok ⟨"pointwise", none, [], [], [], [], none, [], none⟩ ∧
    (⟨"pointwise", none, [], [], [], [], none, [], none⟩ :
      SummaryResult).created_at = none :=
  ⟨rfl, rfl⟩

/-- C5 amended: created_at is an optional field defaulting to None: it holds
a creation timestamp exactly when the producer supplies one, and a
SummaryResult constructed without it has created_at equal to None. -/
theorem summary_result_created_at_optional :
    (∀ (m ts : String),
      SummaryResult.validate (some m)
          none none none none none none none (some ts) =
        .ok ⟨m, none, [], [], [], [], none, [], some ts⟩) ∧
    (∀ (m : String),
      SummaryResult.validate (some m)
          none none none none none none none none =
        .ok ⟨m, none, [], [], [], [], none, [], none⟩) :=
  ⟨fun _ _ => rfl, fun _ => rfl⟩

/-- C6: Decision construction succeeds exactly when both decision and
rationale are supplied: omitting either one fails with a validation error,
while omitting owner and date succeeds and leaves both equal to None. -/
theorem decision_requires_decision_and_rationale :
    (∀ (d r : String) (o dt : Option String) (s : Option (List String)),
      Decision.validate (some d) (some r) o dt s =
        .ok ⟨d, r, o, dt, s.getD []⟩) ∧
    (∀ (r o dt : Option String) (s : Option (List String)),
      Decision.validate none r o dt s = .error .validation_error) ∧
    (∀ (d : String) (o dt : Option String) (s : Option (List String)),
      Decision.validate (some d) none o dt s = .error .validation_error) ∧
    (∀ (d r : String),
      Decision.validate (some d) (some r) none none none =
        .ok ⟨d, r, none, none, []⟩) :=
  ⟨fun _ _ _ _ _ => rfl, fun _ _ _ _ => rfl, fun _ _ _ _ => rfl,
    fun _ _ => rfl⟩

/-- C7 counterexample: constructing a SummarizerConfig whose memory_level is
the string weekly, outside the set of rolling, session, canonical, succeeds
rather than being rejected. -/
theorem config_memory_level_unchecked :
    SummarizerConfig.validate (some "tenant-a")
        none none none none none (some "weekly") =
      .ok ⟨"tenant-a", "openai", 4000, 1/20, 7/10, true, "weekly"⟩ ∧
    ("weekly" : String) ≠ "rolling" ∧ ("weekly" : String) ≠ "session" ∧
    ("weekly" : String) ≠ "canonical" :=
  ⟨rfl, by decide, by decide, by decide⟩

/-- C7 amended: memory_level defaults to session when the caller omits it,
but it is an unconstrained string: any value, inside or outside the set of
rolling, session, canonical, is accepted. -/
theorem config_memory_level_defaults_session :
    (∀ (n : String),
      SummarizerConfig.validate (some n) none none none none none none =
        .ok ⟨n, "openai", 4000, 1/20, 7/10, true, "session"⟩) ∧
    (∀ (n lvl : String),
      SummarizerConfig.validate (some n) none none none none none (some lvl) =
        .ok ⟨n, "openai", 4000, 1/20, 7/10, true, lvl⟩) :=
  ⟨fun _ => rfl, fun _ _ => rfl⟩

/-- C8: a mode strategy implementation that declares no mode_version of its
own exposes the BaseModeStrategy class attribute, the string 1. -/
theorem base_mode_strategy_version_default :
    ∀ (impl : ModeStrategyImpl), impl.mode_version_decl = none →
      ModeStrategyImpl.mode_version impl = "1" := by
  intro impl h
  simp [ModeStrategyImpl.mode_version, h, BaseModeStrategy.mode_version]

/-- Witness for C8: the concrete demo mode declares no mode_version and its
exposed mode_version is the string 1. -/
theorem base_mode_strategy_version_default_witness :
    ModeStrategyImpl.mode_version demo_mode = "1" :=
  base_mode_strategy_version_default demo_mode rfl

/-- C9: complete takes a prompt, a model identifier, a temperature defaulting
to 0.7, a max_tokens defaulting to None and an open bag of extra options
defaulting to empty, and its result, when not one of the documented errors,
is a plain string. -/
theorem llm_complete_signature :
    (∀ (p m : String),
      ({ prompt := p, model := m } : CompleteArgs).temperature = 7/10 ∧
      ({ prompt := p, model := m } : CompleteArgs).max_tokens = none ∧
      ({ prompt := p, model := m } : CompleteArgs).kwargs = []) ∧
    (∀ (c : LLMClient) (a : CompleteArgs),
      (∃ s : String, c.complete a = .ok s) ∨
      (∃ e : LLMError, c.complete a = .error e)) := by
  constructor
  · intro p m
    exact ⟨rfl, rfl, rfl⟩
  · intro c a
    cases h : c.complete a with
    | ok s => exact Or.inl ⟨s, rfl⟩
    | error e => exact Or.inr ⟨e, rfl⟩

/-- C10: constructing a SummaryResult with only mode supplied yields empty
points, decisions, timeline, tasks and metadata and None for title, summary
and created_at, and the default objects are freshly allocated per
construction: two constructions never share a default list or mapping. -/
theorem summary_result_fresh_defaults :
    ∀ (mode : String) (c : Nat),
      (SummaryResult.new mode c).1 =
        ⟨mode, none, [], [], [], [], none, [], none⟩ ∧
      ∀ (mode2 : String),
        List.Disjoint (SummaryResult.new mode c).2.1
          (SummaryResult.new mode2 (SummaryResult.new mode c).2.2).2.1 := by
  intro mode c
  refine ⟨rfl, ?_⟩
  intro mode2 a ha hb
  simp [SummaryResult.new, runDefault, points_default, decisions_default,
    timeline_default, tasks_default, metadata_default] at ha hb
  omega

end Summarion
